import Mathlib

/-!
Verification of the MCP bridge (`mcp_bridge.py`) and the thinking step log
(`mcp_thinking_tool.py`) of this repository, via a shallow embedding.

The bridge adapts an asynchronous client to synchronous call sites: it owns a
background event loop running on a dedicated thread, and its operations submit
coroutines to that loop and block on `future.result(timeout=...)`.  We embed a
submitted coroutine as an `AsyncOp`: the number of time units after which it
completes, together with the value it returns or the error it raises.  Each
bridge operation is a pure function from the bridge state (the four attributes
of `MCPBridge.__init__`) and the relevant `AsyncOp` to a result record that
captures the returned/raised outcome, the side effects (loops created, threads
started, handshake attempts, coroutine submissions, loop-stop signals) and the
time the caller was blocked.
-/

/-- A coroutine submitted to the bridge's event loop: after `completionTime`
time units it either produces a value of type `α` or raises an error of type
`ε`. -/
structure AsyncOp (α ε : Type) where
  completionTime : Nat
  result : Except ε α

/-- The mutable attributes set by `MCPBridge.__init__` in `mcp_bridge.py`:
`client`, `loop` and `_thread` are embedded as "is not None" booleans, and
`_connected` as `connected`. -/
structure MCPBridge where
  hasClient : Bool
  hasLoop : Bool
  hasThread : Bool
  connected : Bool
deriving DecidableEq

/-- `MCPBridge()`: all handles are `None` and `_connected` is `False`. -/
def MCPBridge.mkFresh : MCPBridge :=
  { hasClient := false, hasLoop := false, hasThread := false, connected := false }

/-- What `MCPBridge.call_async` does for its caller. -/
inductive CallOutcome (α ε : Type)
  | ok (v : α)
  | raised (e : ε)
  | timedOut
  | notStartedError
deriving DecidableEq

/-- Result of one `call_async` invocation: the outcome handed to the caller,
the number of coroutine submissions and event loops created during the call,
and the time units the caller spent blocked. -/
structure CallResult (α ε : Type) where
  outcome : CallOutcome α ε
  submissions : Nat
  loopsCreated : Nat
  blockedTime : Nat
deriving DecidableEq

/-- The ceiling passed to `future.result` in `call_async` (60 seconds). -/
def CALL_TIMEOUT : Nat := 60

/-- `MCPBridge.call_async` from `mcp_bridge.py`: if `_connected` is false it
raises `RuntimeError` before submitting anything; otherwise it submits the
coroutine via `asyncio.run_coroutine_threadsafe` and blocks on
`future.result(timeout=60)`, which returns the coroutine's value, re-raises
the coroutine's error, or raises a timeout error after 60 units. -/
def MCPBridge.call_async {α ε : Type} (b : MCPBridge) (op : AsyncOp α ε) :
    CallResult α ε :=
  if b.connected = false then
    { outcome := .notStartedError, submissions := 0, loopsCreated := 0,
      blockedTime := 0 }
  else if op.completionTime ≤ CALL_TIMEOUT then
    match op.result with
    | .ok v => { outcome := .ok v, submissions := 1, loopsCreated := 0,
                 blockedTime := op.completionTime }
    | .error e => { outcome := .raised e, submissions := 1, loopsCreated := 0,
                    blockedTime := op.completionTime }
  else
    { outcome := .timedOut, submissions := 1, loopsCreated := 0,
      blockedTime := CALL_TIMEOUT }

/-- What `MCPBridge.start` does for its caller. -/
inductive StartOutcome (ε : Type)
  | ok
  | connectionTimeout
  | connectionError (e : ε)
deriving DecidableEq

/-- Result of one `start` invocation: the bridge state afterwards, the outcome,
the side-effect counters and the time the caller spent blocked. -/
structure StartResult (ε : Type) where
  bridge : MCPBridge
  outcome : StartOutcome ε
  loopsCreated : Nat
  threadsStarted : Nat
  handshakeAttempts : Nat
  blockedTime : Nat
deriving DecidableEq

/-- The ceiling passed to `future.result` in `start` (30 seconds). -/
def START_TIMEOUT : Nat := 30

/-- `MCPBridge.start` from `mcp_bridge.py`: returns at once if `_connected`;
otherwise creates a new event loop, starts the loop thread, creates the client,
submits `client.connect()` and blocks on `future.result(timeout=30)`.  Only
after the handshake returns is `_connected` set; a handshake error or timeout
propagates out of `start`, leaving `_connected` false (but the loop, thread and
client already created). -/
def MCPBridge.start {ε : Type} (b : MCPBridge) (connectOp : AsyncOp Unit ε) :
    StartResult ε :=
  if b.connected then
    { bridge := b, outcome := .ok, loopsCreated := 0, threadsStarted := 0,
      handshakeAttempts := 0, blockedTime := 0 }
  else
    let b1 : MCPBridge :=
      { hasClient := true, hasLoop := true, hasThread := true, connected := false }
    if connectOp.completionTime ≤ START_TIMEOUT then
      match connectOp.result with
      | .ok _ =>
        { bridge := { b1 with connected := true }, outcome := .ok,
          loopsCreated := 1, threadsStarted := 1, handshakeAttempts := 1,
          blockedTime := connectOp.completionTime }
      | .error e =>
        { bridge := b1, outcome := .connectionError e, loopsCreated := 1,
          threadsStarted := 1, handshakeAttempts := 1,
          blockedTime := connectOp.completionTime }
    else
      { bridge := b1, outcome := .connectionTimeout, loopsCreated := 1,
        threadsStarted := 1, handshakeAttempts := 1, blockedTime := START_TIMEOUT }

/-- What `MCPBridge.stop` does for its caller. -/
inductive StopOutcome (ε : Type)
  | ok
  | timedOut
  | raised (e : ε)
deriving DecidableEq

/-- Result of one `stop` invocation: the bridge state afterwards, the outcome,
whether `loop.call_soon_threadsafe(loop.stop)` was reached, and the time the
caller spent blocked. -/
structure StopResult (ε : Type) where
  bridge : MCPBridge
  outcome : StopOutcome ε
  loopStopSignalled : Bool
  blockedTime : Nat
deriving DecidableEq

/-- The ceiling passed to `future.result` in `stop` (10 seconds). -/
def STOP_TIMEOUT : Nat := 10

/-- `MCPBridge.stop` from `mcp_bridge.py`: returns at once if not `_connected`;
otherwise, if a client exists, submits `client.disconnect()` and blocks on
`future.result(timeout=10)`.  That call has no exception handler: a teardown
error or a 10-unit timeout propagates out of `stop`, so the
`loop.call_soon_threadsafe(loop.stop)` line and the `_connected = False` line
are never reached on those paths. -/
def MCPBridge.stop {ε : Type} (b : MCPBridge) (disconnectOp : AsyncOp Unit ε) :
    StopResult ε :=
  if b.connected = false then
    { bridge := b, outcome := .ok, loopStopSignalled := false, blockedTime := 0 }
  else if b.hasClient then
    if disconnectOp.completionTime ≤ STOP_TIMEOUT then
      match disconnectOp.result with
      | .ok _ =>
        { bridge := { b with connected := false }, outcome := .ok,
          loopStopSignalled := b.hasLoop,
          blockedTime := disconnectOp.completionTime }
      | .error e =>
        { bridge := b, outcome := .raised e, loopStopSignalled := false,
          blockedTime := disconnectOp.completionTime }
    else
      { bridge := b, outcome := .timedOut, loopStopSignalled := false,
        blockedTime := STOP_TIMEOUT }
  else
    { bridge := { b with connected := false }, outcome := .ok,
      loopStopSignalled := b.hasLoop, blockedTime := 0 }

/-- Result of `cleanup_bridge`: the value of the module-global `_bridge`
afterwards, and the outcome it surfaces (`.ok` means it returned normally). -/
structure CleanupResult (ε : Type) where
  glob : Option MCPBridge
  outcome : StopOutcome ε
deriving DecidableEq

/-- `cleanup_bridge` from `mcp_bridge.py` (registered with `atexit`): if the
global `_bridge` is `None` it does nothing; otherwise it calls `_bridge.stop()`
and then sets `_bridge = None` — but an exception from `stop()` propagates
before the assignment is reached. -/
def cleanup_bridge {ε : Type} (g : Option MCPBridge) (disconnectOp : AsyncOp Unit ε) :
    CleanupResult ε :=
  match g with
  | none => { glob := none, outcome := .ok }
  | some b =>
    let r := b.stop disconnectOp
    match r.outcome with
    | .ok => { glob := none, outcome := .ok }
    | o => { glob := some r.bridge, outcome := o }

/-!
The thinking step log (`mcp_thinking_tool.py`).  `ThinkingProcess` stores a
list of thought records (Python dicts built by the `sequential_thinking` tool,
always with the same nine keys), a `current_thought` counter and a `branches`
list.  Strings are rendered exactly as the Python f-strings do.
-/

/-- The dict built by `sequential_thinking` and passed to `add_thought`. -/
structure ThoughtData where
  thought : String
  thoughtNumber : Nat
  totalThoughts : Nat
  nextThoughtNeeded : Bool
  isRevision : Bool
  revisesThought : Option Nat
  branchFromThought : Option Nat
  branchId : Option String
  needsMoreThoughts : Bool
deriving DecidableEq

/-- The state set by `ThinkingProcess.__init__`. -/
structure ThinkingProcess where
  thoughts : List ThoughtData
  current_thought : Nat
  branches : List String
deriving DecidableEq

/-- `ThinkingProcess()`: empty thought list, counter 0, empty branches. -/
def ThinkingProcess.mkFresh : ThinkingProcess :=
  { thoughts := [], current_thought := 0, branches := [] }

/-- `ThinkingProcess.add_thought`: appends the record and sets
`current_thought = len(self.thoughts)`.  The second component is the Python
return value: the method body has no `return` statement, so it returns `None`,
embedded as `(none : Option ThoughtData)`. -/
def ThinkingProcess.add_thought (p : ThinkingProcess) (t : ThoughtData) :
    ThinkingProcess × Option ThoughtData :=
  ({ thoughts := p.thoughts ++ [t],
     current_thought := (p.thoughts ++ [t]).length,
     branches := p.branches }, none)

/-- Renders `f"{thought.get('revisesThought')}"`: Python prints `None` for a
missing value and the decimal digits for an int. -/
def optNatRepr : Option Nat → String
  | none => "None"
  | some n => toString n

/-- The first two lines `get_summary` emits for the entry at 1-based position
`i` with `total = len(self.thoughts)`: the position/count header and the
content line. -/
def entryHead (total i : Nat) (t : ThoughtData) : String :=
  "Крок " ++ toString i ++ "/" ++ toString total ++ ":\n" ++
  "  " ++ t.thought ++ "\n"

/-- The optional revision and branch lines plus the trailing blank line of one
entry.  `thought.get('branchId')` is truthy only for a non-empty string, so
`some ""` renders nothing, as in Python. -/
def entryTail (t : ThoughtData) : String :=
  (if t.isRevision then
    "  [Переопрацювання кроку " ++ optNatRepr t.revisesThought ++ "]\n"
   else "") ++
  (match t.branchId with
   | some b => if b = "" then "" else "  [Гілка: " ++ b ++ "]\n"
   | none => "") ++
  "\n"

/-- One iteration of the `for i, thought in enumerate(self.thoughts, 1)` loop
body in `get_summary`. -/
def renderEntry (total : Nat) (i : Nat) (t : ThoughtData) : String :=
  entryHead total i t ++ entryTail t

/-- The whole `for` loop of `get_summary`, starting at 1-based position `i`. -/
def renderEntries (total : Nat) : Nat → List ThoughtData → String
  | _, [] => ""
  | i, t :: ts => renderEntry total i t ++ renderEntries total (i + 1) ts

/-- The fixed message `get_summary` returns on an empty log. -/
def emptySummaryMsg : String := "Процес мислення ще не почався."

/-- `ThinkingProcess.get_summary`: the empty-log message if no thoughts, else
a header with the step count followed by one rendered block per thought in
list order. -/
def ThinkingProcess.get_summary (p : ThinkingProcess) : String :=
  if p.thoughts.isEmpty then emptySummaryMsg
  else
    "Процес мислення (" ++ toString p.thoughts.length ++ " кроків):\n\n" ++
    renderEntries p.thoughts.length 1 p.thoughts

/-- The `sequential_thinking` tool body: builds the `thought_data` dict,
records it on the (process-global) `ThinkingProcess`, and returns a
confirmation string (not the created step).  `thought[:100]` is the first 100
characters. -/
def sequential_thinking (p : ThinkingProcess) (thought : String)
    (thought_number total_thoughts : Nat)
    (next_thought_needed is_revision : Bool)
    (revises_thought branch_from_thought : Option Nat)
    (branch_id : Option String) (needs_more_thoughts : Bool) :
    ThinkingProcess × String :=
  let td : ThoughtData :=
    { thought := thought, thoughtNumber := thought_number,
      totalThoughts := total_thoughts, nextThoughtNeeded := next_thought_needed,
      isRevision := is_revision, revisesThought := revises_thought,
      branchFromThought := branch_from_thought, branchId := branch_id,
      needsMoreThoughts := needs_more_thoughts }
  let p1 := (p.add_thought td).1
  let response :=
    "✓ Крок " ++ toString thought_number ++ "/" ++ toString total_thoughts ++
    " записано\n" ++
    "Думка: " ++ thought.take 100 ++
    (if 100 < thought.length then "..." else "") ++ "\n" ++
    (if is_revision then
      "[Переопрацювання кроку " ++ optNatRepr revises_thought ++ "]\n"
     else "") ++
    (if next_thought_needed = false then
      "\n✅ Процес мислення завершено!\n" ++
      "Всього кроків: " ++ toString p1.thoughts.length ++ "\n"
     else
      "→ Продовжуємо до кроку " ++ toString (thought_number + 1) ++ "\n")
  (p1, response)

/-- The `get_thinking_summary` tool: returns the global process's summary. -/
def get_thinking_summary (p : ThinkingProcess) : String := p.get_summary

/-- `reset_thinking_process`: rebinds the global to a fresh `ThinkingProcess`,
discarding the old state. -/
def reset_thinking_process (_ : ThinkingProcess) : ThinkingProcess :=
  ThinkingProcess.mkFresh

/-- A sequence of `add_thought` calls applied in order from a given state. -/
def applyAdds (p : ThinkingProcess) (l : List ThoughtData) : ThinkingProcess :=
  l.foldl (fun q t => (q.add_thought t).1) p

/-- `c.isPrefixOf s` unfolded over char lists (used to state the substring
facts of the summary format). -/
def containsSeg (c : List Char) : List Char → Bool
  | [] => c.isEmpty
  | a :: t => c.isPrefixOf (a :: t) || containsSeg c t

/-- The pieces of `cs` occur, in order and without overlap, inside `s`. -/
def appearsInOrder : List Char → List (List Char) → Prop
  | _, [] => True
  | s, c :: cs => ∃ pre suf, s = pre ++ c ++ suf ∧ appearsInOrder suf cs

/-!
Bridge theorems.  Concrete instances used by the closed witness statements.
-/

/-- A connected bridge with all handles present (the state `start` leaves a
fresh bridge in after a successful handshake). -/
def connBridge : MCPBridge :=
  { hasClient := true, hasLoop := true, hasThread := true, connected := true }

/-- An operation completing quickly with value 42. -/
def okOp : AsyncOp Nat Nat := { completionTime := 5, result := .ok 42 }

/-- An operation completing quickly by raising error 7. -/
def errOp : AsyncOp Nat Nat := { completionTime := 5, result := .error 7 }

/-- An operation that takes 100 units, beyond the 60-unit call ceiling. -/
def slowOp : AsyncOp Nat Nat := { completionTime := 100, result := .ok 1 }

/-- A handshake that completes successfully after 5 units. -/
def quickConnect : AsyncOp Unit Nat := { completionTime := 5, result := .ok () }

/-- A teardown that needs 11 units, beyond the 10-unit stop ceiling. -/
def slowTeardown : AsyncOp Unit Nat := { completionTime := 11, result := .ok () }

/-- Any `call_async` blocks its caller at most 60 time units. -/
theorem call_async_blocked_le {α ε : Type} (b : MCPBridge) (op : AsyncOp α ε) :
    (b.call_async op).blockedTime ≤ 60 := by
  rcases op with ⟨t, r⟩
  by_cases hc : b.connected = false
  · simp [MCPBridge.call_async, hc]
  · by_cases ht : t ≤ 60
    · rcases r with e | v <;> simp [MCPBridge.call_async, hc, CALL_TIMEOUT, ht]
    · simp [MCPBridge.call_async, hc, CALL_TIMEOUT, ht]

/-- Any `start` blocks its caller at most 30 time units. -/
theorem start_blocked_le {ε : Type} (b : MCPBridge) (h : AsyncOp Unit ε) :
    (b.start h).blockedTime ≤ 30 := by
  rcases h with ⟨t, r⟩
  by_cases hc : b.connected
  · simp [MCPBridge.start, hc]
  · by_cases ht : t ≤ 30
    · rcases r with e | v <;> simp [MCPBridge.start, hc, START_TIMEOUT, ht]
    · simp [MCPBridge.start, hc, START_TIMEOUT, ht]

/-- Claim C1: through a connected bridge, when the submitted operation
completes within the 60-unit wait ceiling, `call_async` hands back the
operation's result value verbatim if it succeeds, and re-raises the
operation's own error unchanged if it raises. -/
theorem call_async_pass_through {α ε : Type} (b : MCPBridge) (op : AsyncOp α ε)
    (hc : b.connected = true) (ht : op.completionTime ≤ 60) :
    (∀ v : α, op.result = .ok v → (b.call_async op).outcome = .ok v) ∧
    (∀ e : ε, op.result = .error e → (b.call_async op).outcome = .raised e) := by
  constructor <;> intro x hx <;>
    simp [MCPBridge.call_async, hc, CALL_TIMEOUT, ht, hx]

/-- Witness for C1: on a connected bridge a value 42 comes back as 42 and a
raised error 7 comes back as that same error 7. -/
theorem call_async_pass_through_witness :
    (connBridge.call_async okOp).outcome = .ok 42 ∧
    (connBridge.call_async errOp).outcome = .raised 7 :=
  ⟨(call_async_pass_through connBridge okOp rfl (by decide)).1 42 rfl,
   (call_async_pass_through connBridge errOp rfl (by decide)).2 7 rfl⟩

/-- Claim C2: on any bridge whose `_connected` flag is false (a fresh,
never-started bridge like `MCPBridge.mkFresh`, or one whose `stop` cleared the
flag), `call_async` raises the not-started `RuntimeError`, submits nothing and
creates no event loop. -/
theorem call_async_not_started {α ε : Type} (b : MCPBridge) (op : AsyncOp α ε)
    (h : b.connected = false) :
    b.call_async op =
      { outcome := .notStartedError, submissions := 0, loopsCreated := 0,
        blockedTime := 0 } ∧
    MCPBridge.mkFresh.connected = false := by
  refine ⟨?_, rfl⟩
  simp [MCPBridge.call_async, h]

/-- Witness for C2: a fresh bridge rejects a call with the not-started error
and zero submissions and loops created. -/
theorem call_async_not_started_witness :
    MCPBridge.mkFresh.call_async okOp =
      { outcome := .notStartedError, submissions := 0, loopsCreated := 0,
        blockedTime := 0 } :=
  (call_async_not_started MCPBridge.mkFresh okOp rfl).1

/-- Claim C3: starting a not-yet-connected bridge whose handshake succeeds
within the 30-unit ceiling connects it with exactly one loop created, one
thread started and one handshake attempt; a second `start` is a no-op that
returns immediately (blocked 0 units, no new loop, no new handshake), so the
two calls together create exactly one background context and one handshake. -/
theorem start_idempotent {ε : Type} (b : MCPBridge) (h : AsyncOp Unit ε)
    (hb : b.connected = false) (hts : h.completionTime ≤ 30)
    (hok : h.result = .ok ()) :
    (b.start h).bridge.connected = true ∧
    (b.start h).loopsCreated = 1 ∧ (b.start h).threadsStarted = 1 ∧
    (b.start h).handshakeAttempts = 1 ∧
    (b.start h).bridge.start h =
      { bridge := (b.start h).bridge, outcome := .ok, loopsCreated := 0,
        threadsStarted := 0, handshakeAttempts := 0, blockedTime := 0 } ∧
    (b.start h).loopsCreated + ((b.start h).bridge.start h).loopsCreated = 1 ∧
    (b.start h).handshakeAttempts +
      ((b.start h).bridge.start h).handshakeAttempts = 1 := by
  have h1 : b.start h =
      { bridge := { hasClient := true, hasLoop := true, hasThread := true,
                    connected := true },
        outcome := .ok, loopsCreated := 1, threadsStarted := 1,
        handshakeAttempts := 1, blockedTime := h.completionTime } := by
    simp [MCPBridge.start, hb, START_TIMEOUT, hts, hok]
  simp only [h1]
  simp [MCPBridge.start]

/-- Witness for C3: two successive starts of a fresh bridge with a 5-unit
successful handshake create one loop and one handshake in total. -/
theorem start_idempotent_witness :
    (MCPBridge.mkFresh.start quickConnect).loopsCreated +
      ((MCPBridge.mkFresh.start quickConnect).bridge.start
        quickConnect).loopsCreated = 1 ∧
    (MCPBridge.mkFresh.start quickConnect).handshakeAttempts +
      ((MCPBridge.mkFresh.start quickConnect).bridge.start
        quickConnect).handshakeAttempts = 1 :=
  ⟨(start_idempotent MCPBridge.mkFresh quickConnect rfl (by decide)
      rfl).2.2.2.2.2.1,
   (start_idempotent MCPBridge.mkFresh quickConnect rfl (by decide)
      rfl).2.2.2.2.2.2⟩

/-- Claim C4 counterexample: on a connected bridge whose teardown needs 11
units (one more than the 10-unit ceiling), `stop` does NOT behave as claimed —
it is false that it completes without error, signals the loop to halt and
marks the bridge not connected.  `future.result(timeout=10)` raises a timeout
error with no handler around it. -/
theorem stop_timeout_cex :
    ¬ ((connBridge.stop slowTeardown).outcome = StopOutcome.ok ∧
       (connBridge.stop slowTeardown).loopStopSignalled = true ∧
       (connBridge.stop slowTeardown).bridge.connected = false) := by
  decide

/-- Claim C4 amended: on a connected bridge with a client, if the teardown
does not complete within the 10-unit ceiling, `stop` fails by raising the
timeout error after blocking 10 units: the bridge state is unchanged (still
marked connected) and the background loop is never signalled to halt. -/
theorem stop_timeout_raises {ε : Type} (b : MCPBridge) (td : AsyncOp Unit ε)
    (hc : b.connected = true) (hcl : b.hasClient = true)
    (ht : 10 < td.completionTime) :
    (b.stop td).outcome = .timedOut ∧ (b.stop td).bridge = b ∧
    (b.stop td).loopStopSignalled = false ∧ (b.stop td).blockedTime = 10 := by
  have hn : ¬ td.completionTime ≤ 10 := by omega
  simp [MCPBridge.stop, hc, hcl, hn, STOP_TIMEOUT]

/-- Witness for the amended C4: the concrete connected bridge with an 11-unit
teardown gets the timeout outcome and keeps its state. -/
theorem stop_timeout_raises_witness :
    (connBridge.stop slowTeardown).outcome = .timedOut ∧
    (connBridge.stop slowTeardown).bridge = connBridge :=
  ⟨(stop_timeout_raises connBridge slowTeardown rfl rfl (by decide)).1,
   (stop_timeout_raises connBridge slowTeardown rfl rfl (by decide)).2.1⟩

/-- Claim C5: on a connected bridge, an operation that does not complete
within 60 units makes `call_async` fail with the call-timeout error after
blocking exactly 60 units; moreover every `call_async` blocks its caller at
most 60 units and every `start` blocks its caller at most 30 units. -/
theorem call_timeout_bound {α ε : Type} (b : MCPBridge) (op : AsyncOp α ε)
    (hc : b.connected = true) (ht : 60 < op.completionTime) :
    (b.call_async op).outcome = .timedOut ∧
    (b.call_async op).blockedTime = 60 ∧
    (∀ op2 : AsyncOp α ε, (b.call_async op2).blockedTime ≤ 60) ∧
    ∀ (b2 : MCPBridge) (h : AsyncOp Unit ε), (b2.start h).blockedTime ≤ 30 := by
  have hn : ¬ op.completionTime ≤ 60 := by omega
  refine ⟨?_, ?_, fun op2 => call_async_blocked_le b op2,
    fun b2 h => start_blocked_le b2 h⟩ <;>
  simp [MCPBridge.call_async, hc, hn, CALL_TIMEOUT]

/-- Witness for C5: a 100-unit operation on a connected bridge times out with
the caller blocked exactly 60 units. -/
theorem call_timeout_bound_witness :
    (connBridge.call_async slowOp).outcome = .timedOut ∧
    (connBridge.call_async slowOp).blockedTime = 60 :=
  ⟨(call_timeout_bound connBridge slowOp rfl (by decide)).1,
   (call_timeout_bound connBridge slowOp rfl (by decide)).2.1⟩

/-- Claim C6: on any bridge that is not connected, `stop` is a no-op returning
without error (state unchanged, nothing signalled, no blocking), and the
`atexit` handler `cleanup_bridge` returns normally both when the global bridge
is such an unconnected instance and when it was never created at all. -/
theorem stop_noop_when_not_connected {ε : Type} (b : MCPBridge)
    (td : AsyncOp Unit ε) (h : b.connected = false) :
    b.stop td =
      { bridge := b, outcome := .ok, loopStopSignalled := false,
        blockedTime := 0 } ∧
    cleanup_bridge (some b) td = { glob := none, outcome := .ok } ∧
    cleanup_bridge (none : Option MCPBridge) td =
      { glob := none, outcome := .ok } := by
  have h1 : b.stop td =
      { bridge := b, outcome := .ok, loopStopSignalled := false,
        blockedTime := 0 } := by
    simp [MCPBridge.stop, h]
  refine ⟨h1, ?_, rfl⟩
  simp [cleanup_bridge, h1]

/-- Witness for C6: stopping a never-started bridge is a no-op and its
cleanup handler succeeds. -/
theorem stop_noop_when_not_connected_witness :
    MCPBridge.mkFresh.stop quickConnect =
      { bridge := MCPBridge.mkFresh, outcome := .ok, loopStopSignalled := false,
        blockedTime := 0 } ∧
    cleanup_bridge (some MCPBridge.mkFresh) quickConnect =
      { glob := none, outcome := .ok } :=
  ⟨(stop_noop_when_not_connected MCPBridge.mkFresh quickConnect rfl).1,
   (stop_noop_when_not_connected MCPBridge.mkFresh quickConnect rfl).2.1⟩

/-!
Step-log theorems.
-/

/-- The char-list heads of the entries `renderEntries total i ts` emits, in
emission order. -/
def entryHeads (total : Nat) : Nat → List ThoughtData → List (List Char)
  | _, [] => []
  | i, t :: ts => (entryHead total i t).data :: entryHeads total (i + 1) ts

/-- `containsSeg` decides exactly "occurs as a contiguous segment". -/
theorem containsSeg_iff (c s : List Char) :
    containsSeg c s = true ↔ ∃ pre suf, s = pre ++ c ++ suf := by
  induction s with
  | nil =>
    simp only [containsSeg, List.isEmpty_iff]
    constructor
    · intro h
      exact ⟨[], [], by simp [h]⟩
    · rintro ⟨pre, suf, h⟩
      rcases List.append_eq_nil.mp (List.append_eq_nil.mp h.symm).1 with ⟨-, hc⟩
      exact hc
  | cons a t ih =>
    simp only [containsSeg, Bool.or_eq_true, ih, List.isPrefixOf_iff_prefix]
    constructor
    · rintro (⟨suf, hsuf⟩ | ⟨pre, suf, h⟩)
      · exact ⟨[], suf, by simp [hsuf]⟩
      · exact ⟨a :: pre, suf, by simp [h]⟩
    · rintro ⟨pre, suf, h⟩
      cases pre with
      | nil =>
        exact Or.inl ⟨suf, by simpa using h.symm⟩
      | cons p pre =>
        simp only [List.cons_append, List.cons.injEq] at h
        exact Or.inr ⟨pre, suf, h.2⟩

/-- Prepending junk on the left preserves in-order occurrence. -/
theorem appearsInOrder_append_left (junk s : List Char) (cs : List (List Char))
    (h : appearsInOrder s cs) : appearsInOrder (junk ++ s) cs := by
  cases cs with
  | nil => trivial
  | cons c cs =>
    obtain ⟨pre, suf, he, hrest⟩ := h
    exact ⟨junk ++ pre, suf, by rw [he]; simp, hrest⟩

/-- The entry heads occur in order in the loop output (with anything glued on
the right). -/
theorem appearsInOrder_renderEntries (total : Nat) (ts : List ThoughtData) :
    ∀ (i : Nat) (rest : List Char),
      appearsInOrder ((renderEntries total i ts).data ++ rest)
        (entryHeads total i ts) := by
  induction ts with
  | nil => intro i rest; trivial
  | cons t ts ih =>
    intro i rest
    refine ⟨[], (entryTail t).data ++ ((renderEntries total (i + 1) ts).data ++ rest),
      ?_, ?_⟩
    · simp [renderEntries, renderEntry, String.data_append]
    · exact appearsInOrder_append_left _ _ _ (ih (i + 1) rest)

/-- A step with caller-supplied number 5 of 7. -/
def oddThought : ThoughtData :=
  { thought := "X", thoughtNumber := 5, totalThoughts := 7,
    nextThoughtNeeded := true, isRevision := false, revisesThought := none,
    branchFromThought := none, branchId := none, needsMoreThoughts := false }

/-- The log holding only `oddThought`. -/
def oddProcess : ThinkingProcess :=
  (ThinkingProcess.mkFresh.add_thought oddThought).1

/-- A generic sample step. -/
def sampleThought : ThoughtData :=
  { thought := "analyse the input data", thoughtNumber := 1, totalThoughts := 3,
    nextThoughtNeeded := true, isRevision := false, revisesThought := none,
    branchFromThought := none, branchId := none, needsMoreThoughts := false }

/-- A step log built from three steps numbered 1, 2, 3 of total 3. -/
def steps123 : ThinkingProcess :=
  applyAdds ThinkingProcess.mkFresh
    [{ thought := "first step", thoughtNumber := 1, totalThoughts := 3,
       nextThoughtNeeded := true, isRevision := false, revisesThought := none,
       branchFromThought := none, branchId := none, needsMoreThoughts := false },
     { thought := "second step", thoughtNumber := 2, totalThoughts := 3,
       nextThoughtNeeded := true, isRevision := false, revisesThought := none,
       branchFromThought := none, branchId := none, needsMoreThoughts := false },
     { thought := "third step", thoughtNumber := 3, totalThoughts := 3,
       nextThoughtNeeded := false, isRevision := false, revisesThought := none,
       branchFromThought := none, branchId := none, needsMoreThoughts := false }]

/-- Claim C7 counterexample: `add_thought` does not hand the created step back
to its caller — the Python method body has no `return` statement, so the call
evaluates to `None`, not the appended step. -/
theorem add_thought_return_cex :
    (ThinkingProcess.mkFresh.add_thought sampleThought).2 ≠ some sampleThought := by
  decide

/-- Claim C7 amended: `add_thought` unconditionally appends exactly the given
step at the end of the log (no validation), updates the `current_thought`
counter to the new length, leaves `branches` alone, and returns `None` rather
than the created step; the `sequential_thinking` tool likewise appends exactly
one step built from its arguments (and returns a confirmation string). -/
theorem add_thought_appends (p : ThinkingProcess) (t : ThoughtData) :
    (p.add_thought t).1.thoughts = p.thoughts ++ [t] ∧
    (p.add_thought t).1.current_thought = p.thoughts.length + 1 ∧
    (p.add_thought t).1.branches = p.branches ∧
    (p.add_thought t).2 = none ∧
    ∀ (s : String) (tn tt : Nat) (ntn ir : Bool) (rt bft : Option Nat)
      (bi : Option String) (nmt : Bool),
      (sequential_thinking p s tn tt ntn ir rt bft bi nmt).1.thoughts =
        p.thoughts ++
          [{ thought := s, thoughtNumber := tn, totalThoughts := tt,
             nextThoughtNeeded := ntn, isRevision := ir, revisesThought := rt,
             branchFromThought := bft, branchId := bi,
             needsMoreThoughts := nmt }] := by
  refine ⟨rfl, by simp [ThinkingProcess.add_thought], rfl, rfl, ?_⟩
  intro s tn tt ntn ir rt bft bi nmt
  simp [sequential_thinking, ThinkingProcess.add_thought]

/-- Claim C8 counterexample: the summary entry of a step recorded with
caller-supplied number 5 of total 7 does not contain "Крок 5/7" anywhere —
`get_summary` prints the enumeration position over the log length ("Крок 1/1"
here), not the step's own number and total. -/
theorem get_summary_number_cex :
    (¬ ∃ pre suf, (ThinkingProcess.get_summary oddProcess).data =
        pre ++ ("Крок 5/7".data) ++ suf) ∧
    (∃ pre suf, (ThinkingProcess.get_summary oddProcess).data =
        pre ++ ("Крок 1/1".data) ++ suf) := by
  constructor
  · intro h
    have hb := (containsSeg_iff ("Крок 5/7".data)
      (ThinkingProcess.get_summary oddProcess).data).mpr h
    have hf : containsSeg ("Крок 5/7".data)
        (ThinkingProcess.get_summary oddProcess).data = false := by decide
    rw [hb] at hf
    cases hf
  · exact (containsSeg_iff ("Крок 1/1".data)
      (ThinkingProcess.get_summary oddProcess).data).mp (by decide)

/-- Claim C8 amended: `get_summary` is a pure function of the log state; on an
empty log it returns exactly the fixed empty message, and on a non-empty log
it renders one block per recorded step in append order, the block of the step
at 1-based position i opening with the position-over-log-length header
"Крок i/N" followed by the step's content on the next line (the caller-supplied
step number and total are not used). -/
theorem get_summary_renders (p : ThinkingProcess) (hne : p.thoughts ≠ []) :
    (∀ q : ThinkingProcess, q.thoughts = [] → q.get_summary = emptySummaryMsg) ∧
    appearsInOrder p.get_summary.data
      (entryHeads p.thoughts.length 1 p.thoughts) := by
  refine ⟨fun q hq => by simp [ThinkingProcess.get_summary, hq], ?_⟩
  have hne2 : p.thoughts.isEmpty = false := by
    simpa [List.isEmpty_iff] using hne
  have hdata : p.get_summary.data =
      ("Процес мислення (" ++ toString p.thoughts.length ++ " кроків):\n\n").data
        ++ ((renderEntries p.thoughts.length 1 p.thoughts).data ++ []) := by
    simp [ThinkingProcess.get_summary, hne2, String.data_append]
  rw [hdata]
  exact appearsInOrder_append_left _ _ _
    (appearsInOrder_renderEntries p.thoughts.length p.thoughts 1 [])

/-- Witness for the amended C8: for the three-step log the three entry heads
(each with its position header and its own content) occur in order in the
summary, and the empty log's summary is exactly the empty message. -/
theorem get_summary_renders_witness :
    ThinkingProcess.mkFresh.get_summary = emptySummaryMsg ∧
    appearsInOrder steps123.get_summary.data
      (entryHeads steps123.thoughts.length 1 steps123.thoughts) :=
  ⟨(get_summary_renders steps123 (by decide)).1 ThinkingProcess.mkFresh rfl,
   (get_summary_renders steps123 (by decide)).2⟩

/-- Claim C9: resetting after any sequence of adds yields the empty-log
summary, and a subsequent add produces the one-element fresh state — no prior
step survives into later summaries. -/
theorem reset_clears (l : List ThoughtData) (t : ThoughtData) :
    get_thinking_summary
        (reset_thinking_process (applyAdds ThinkingProcess.mkFresh l)) =
      emptySummaryMsg ∧
    ((reset_thinking_process (applyAdds ThinkingProcess.mkFresh l)).add_thought
        t).1 =
      { thoughts := [t], current_thought := 1, branches := [] } := by
  exact ⟨rfl, rfl⟩

/-- The counter equals the log length whenever it did before the adds. -/
theorem applyAdds_invariant (l : List ThoughtData) (p : ThinkingProcess)
    (h : p.current_thought = p.thoughts.length) :
    (applyAdds p l).current_thought = (applyAdds p l).thoughts.length := by
  induction l generalizing p with
  | nil => simpa [applyAdds] using h
  | cons t ts ih =>
    simp only [applyAdds, List.foldl_cons] at *
    exact ih _ (by simp [ThinkingProcess.add_thought])

/-- Claim C10: starting from a fresh `ThinkingProcess`, after any sequence of
`add_thought` calls the `current_thought` counter equals the number of
recorded thoughts; it starts at 0 and one further `add_thought` increases it
by exactly 1. -/
theorem current_thought_invariant (l : List ThoughtData) :
    (applyAdds ThinkingProcess.mkFresh l).current_thought =
      (applyAdds ThinkingProcess.mkFresh l).thoughts.length ∧
    ThinkingProcess.mkFresh.current_thought = 0 ∧
    ∀ t : ThoughtData,
      ((applyAdds ThinkingProcess.mkFresh l).add_thought t).1.current_thought =
        (applyAdds ThinkingProcess.mkFresh l).current_thought + 1 := by
  have hinv := applyAdds_invariant l ThinkingProcess.mkFresh rfl
  refine ⟨hinv, rfl, fun t => ?_⟩
  simp [ThinkingProcess.add_thought, hinv]
